import Mathlib

/-!
  Verification of the compatible-with adapter library.

  The library wraps two schema versions of a value, Old and Current, in an
  untagged two-case union. Decoding tries the Old shape first and the Current
  shape second, then eagerly normalizes the held case to Current through a
  user-supplied, infallible conversion. On write the adapter re-emits the
  encoding of whichever case it holds, with no extra framing.

  The shallow embedding is parameterized over the external structural
  encode/decode engine, which the library delegates to: a decoder for a type T
  over an input type Bytes is a function Bytes to Except eps T, and a
  serializer is a function T to Bytes. The untagged union decode primitive
  (declared in the source as a serde untagged derive on the enum Alt) tries the
  candidates in declaration order and reports a single combined error when both
  fail, exactly the contract the library requires of the engine.
-/

namespace Compat

/-- Two-case shape alternative, mirroring the source enum Alt with cases
Old(Old) and Current(Current), in that declaration order. -/
inductive Alt (Old Current : Type) where
  | Old (o : Old)
  | Current (c : Current)

/-- Adapter wrapper, mirroring the source tuple struct Compatible that holds
one Alt value as its single field. -/
structure Compatible (Old Current : Type) where
  alt : Alt Old Current

/-- Decode primitive of the untagged union Alt: try the Old candidate decoder
first, then the Current candidate, accept the first structural parse that
succeeds, and when both fail return the single combined error altErr with no
further diagnostic. -/
def Alt.deserialize {Bytes eps Old Current : Type}
    (deOld : Bytes → Except eps Old) (deCur : Bytes → Except eps Current)
    (altErr : eps) (input : Bytes) : Except eps (Alt Old Current) :=
  match deOld input with
  | Except.ok o => Except.ok (Alt.Old o)
  | Except.error _ =>
    match deCur input with
    | Except.ok c => Except.ok (Alt.Current c)
    | Except.error _ => Except.error altErr

/-- Unwrap the adapter, mirroring Compatible::into_current: when the held case
is Old apply the conversion, when it is Current return the value unchanged.
The conversion conv stands for the resolved from_old operation of the
CompatibleWith contract, which the source reaches through the blanket
CompatibleTo impl. -/
def Compatible.into_current {Old Current : Type} (conv : Old → Current)
    (self : Compatible Old Current) : Current :=
  match self.alt with
  | Alt.Old old => conv old
  | Alt.Current current => current

/-- Normalization, mirroring Compatible::make_current: when the held case is
Old replace it with Current via the conversion, otherwise return the adapter
unchanged. -/
def Compatible.make_current {Old Current : Type} (conv : Old → Current)
    (self : Compatible Old Current) : Compatible Old Current :=
  match self.alt with
  | Alt.Old old => Compatible.mk (Alt.Current (conv old))
  | Alt.Current _ => self

/-- Decode entry point, mirroring the Deserialize impl for Compatible: run the
Alt decode primitive, propagate its error unchanged, and on success wrap the
result and normalize it with make_current. -/
def Compatible.deserialize {Bytes eps Old Current : Type} (conv : Old → Current)
    (deOld : Bytes → Except eps Old) (deCur : Bytes → Except eps Current)
    (altErr : eps) (input : Bytes) : Except eps (Compatible Old Current) :=
  Except.map (fun alt => (Compatible.mk alt).make_current conv)
    (Alt.deserialize deOld deCur altErr input)

/-- Encode, mirroring the Serialize impl for Compatible: delegate to the held
case, with no framing, tag, or version marker of its own. -/
def Compatible.serialize {Bytes Old Current : Type}
    (serOld : Old → Bytes) (serCur : Current → Bytes)
    (self : Compatible Old Current) : Bytes :=
  match self.alt with
  | Alt.Old old => serOld old
  | Alt.Current current => serCur current

/-- Field-level decode hook, mirroring Compatible::deserialize_with: decode a
Compatible value, propagating any error, then unwrap it with into_current. -/
def Compatible.deserialize_with {Bytes eps Old Current : Type}
    (conv : Old → Current)
    (deOld : Bytes → Except eps Old) (deCur : Bytes → Except eps Current)
    (altErr : eps) (input : Bytes) : Except eps Current :=
  match Compatible.deserialize conv deOld deCur altErr input with
  | Except.error e => Except.error e
  | Except.ok compatible => Except.ok (compatible.into_current conv)

/-- Conversion impls the user supplied directly for a pair (Old, Current): a
plain From impl on Current, a direct CompatibleWith impl on Current, or a
direct CompatibleTo impl on Old. Each is a total function Old to Current;
coherence lets at most one route produce each trait, so each slot is optional. -/
structure UserImpls (Old Current : Type) where
  fromImpl : Option (Old → Current)
  withImpl : Option (Old → Current)
  toImpl : Option (Old → Current)

/-- Blanket impl of CompatibleWith for any Current with a From impl (source
lines 32 to 39): from_old(value) = value.into(). -/
def from_old_via_from {Old Current : Type} (f : Old → Current) : Old → Current :=
  fun value => f value

/-- Blanket impl of CompatibleTo for any Old whose Current is CompatibleWith it
(source lines 41 to 48): into_current(self) = Current::from_old(self). -/
def into_current_via_with {Old Current : Type} (from_old : Old → Current) :
    Old → Current :=
  fun s => from_old s

/-- CompatibleWith impl visible for a pair after trait resolution: the direct
user impl when present, otherwise the blanket derivation from the From impl.
No impl in the source derives CompatibleWith from CompatibleTo. -/
def resolveWith {Old Current : Type} (u : UserImpls Old Current) :
    Option (Old → Current) :=
  match u.withImpl with
  | some f => some f
  | none => Option.map from_old_via_from u.fromImpl

/-- CompatibleTo impl visible for a pair after trait resolution: the direct
user impl when present, otherwise the blanket derivation from the resolved
CompatibleWith impl. -/
def resolveTo {Old Current : Type} (u : UserImpls Old Current) :
    Option (Old → Current) :=
  match u.toImpl with
  | some f => some f
  | none => Option.map into_current_via_with (resolveWith u)

/-- Concrete decoder on Nat inputs that always succeeds with the input itself. -/
def natOk : Nat → Except Unit Nat := fun b => Except.ok b

/-- Concrete decoder on Nat inputs that always fails. -/
def natFail : Nat → Except Unit Nat := fun _ => Except.error ()

/-- Concrete conversion on Nat used as a distorting upgrade. -/
def succConv : Nat → Nat := fun n => n + 1

/-- Concrete serializer on Nat that emits the value itself. -/
def idSer : Nat → Nat := fun b => b

/-! ## Helper lemmas about the decode primitive -/

/-- When the Old candidate parses, the untagged decode accepts it, whatever the
Current candidate would do. -/
theorem alt_deserialize_ok_old {Bytes eps Old Current : Type}
    (deOld : Bytes → Except eps Old) (deCur : Bytes → Except eps Current)
    (altErr : eps) (input : Bytes) (o : Old) (h : deOld input = Except.ok o) :
    Alt.deserialize deOld deCur altErr input = Except.ok (Alt.Old o) := by
  unfold Alt.deserialize
  rw [h]

/-- When the Old candidate fails and the Current candidate parses, the untagged
decode accepts the Current case. -/
theorem alt_deserialize_ok_cur {Bytes eps Old Current : Type}
    (deOld : Bytes → Except eps Old) (deCur : Bytes → Except eps Current)
    (altErr : eps) (input : Bytes) (e : eps) (c : Current)
    (h1 : deOld input = Except.error e) (h2 : deCur input = Except.ok c) :
    Alt.deserialize deOld deCur altErr input = Except.ok (Alt.Current c) := by
  unfold Alt.deserialize
  rw [h1, h2]

/-- When both candidates fail, the untagged decode fails with the single
combined error. -/
theorem alt_deserialize_err {Bytes eps Old Current : Type}
    (deOld : Bytes → Except eps Old) (deCur : Bytes → Except eps Current)
    (altErr : eps) (input : Bytes) (e1 e2 : eps)
    (h1 : deOld input = Except.error e1) (h2 : deCur input = Except.error e2) :
    Alt.deserialize deOld deCur altErr input = Except.error altErr := by
  unfold Alt.deserialize
  rw [h1, h2]

/-- Every successful adapter decode is the normalization of a successful
untagged decode. -/
theorem compatible_deserialize_ok {Bytes eps Old Current : Type}
    (conv : Old → Current)
    (deOld : Bytes → Except eps Old) (deCur : Bytes → Except eps Current)
    (altErr : eps) (input : Bytes) (a : Compatible Old Current)
    (h : Compatible.deserialize conv deOld deCur altErr input = Except.ok a) :
    ∃ alt, Alt.deserialize deOld deCur altErr input = Except.ok alt ∧
      a = (Compatible.mk alt).make_current conv := by
  unfold Compatible.deserialize at h
  cases hd : Alt.deserialize deOld deCur altErr input with
  | error e =>
    rw [hd] at h
    exact absurd h (by simp [Except.map])
  | ok alt =>
    rw [hd] at h
    simp only [Except.map, Except.ok.injEq] at h
    exact ⟨alt, rfl, h.symm⟩

/-! ## Claim theorems -/

/-- C1: every input accepted by the adapter decode yields an adapter holding
the Current case, because make_current is applied at the end of decode; and no
operation leaves the Current-holding state: make_current returns a
Current-holding adapter unchanged. -/
theorem deserialize_normalized {Bytes eps Old Current : Type}
    (conv : Old → Current)
    (deOld : Bytes → Except eps Old) (deCur : Bytes → Except eps Current)
    (altErr : eps) :
    (∀ (input : Bytes) (a : Compatible Old Current),
        Compatible.deserialize conv deOld deCur altErr input = Except.ok a →
        ∃ c, a.alt = Alt.Current c) ∧
    (∀ (a : Compatible Old Current) (c : Current),
        a.alt = Alt.Current c → a.make_current conv = a) := by
  constructor
  · intro input a h
    obtain ⟨alt, _, ha⟩ :=
      compatible_deserialize_ok conv deOld deCur altErr input a h
    subst ha
    cases alt with
    | Old o => exact ⟨conv o, rfl⟩
    | Current c => exact ⟨c, rfl⟩
  · intro a c h
    rcases a with ⟨alt⟩
    cases alt with
    | Old o => exact absurd h (by simp)
    | Current c2 => rfl

/-- Witness for C1 at a concrete decode: input 0 under the always-succeeding
Old decoder yields the adapter holding Current 1, and make_current leaves that
adapter unchanged. -/
theorem deserialize_normalized_witness :
    (∃ c, (Compatible.mk (Alt.Current 1) : Compatible Nat Nat).alt
        = Alt.Current c) ∧
    (Compatible.mk (Alt.Current 1) : Compatible Nat Nat).make_current succConv
        = Compatible.mk (Alt.Current 1) :=
  ⟨(deserialize_normalized succConv natOk natOk ()).1 0
      (Compatible.mk (Alt.Current 1)) rfl,
    (deserialize_normalized succConv natOk natOk ()).2
      (Compatible.mk (Alt.Current 1)) 1 rfl⟩

/-- C2: for every Old value whose own serialization decodes back as Old,
serializing it, decoding the bytes through the adapter and unwrapping yields
exactly what the conversion produces from that Old value directly. -/
theorem old_upgrade {Bytes eps Old Current : Type}
    (conv : Old → Current)
    (deOld : Bytes → Except eps Old) (deCur : Bytes → Except eps Current)
    (serOld : Old → Bytes) (altErr : eps) (o : Old)
    (h : deOld (serOld o) = Except.ok o) :
    Except.map (Compatible.into_current conv)
        (Compatible.deserialize conv deOld deCur altErr (serOld o))
      = Except.ok (conv o) := by
  unfold Compatible.deserialize
  rw [alt_deserialize_ok_old deOld deCur altErr (serOld o) o h]
  rfl

/-- Witness for C2: the Old value 1 under identity serialization and the
always-succeeding decoder upgrades to succConv 1 = 2. -/
theorem old_upgrade_witness :
    Except.map (Compatible.into_current succConv)
        (Compatible.deserialize succConv natOk natFail () (idSer 1))
      = Except.ok 2 :=
  old_upgrade succConv natOk natFail idSer () 1 rfl

/-- C3 as stated is false: over Nat with identity serialization, decoders that
accept every input, and the conversion succConv, serializing the Current value
5, decoding it through the adapter and unwrapping yields 6, not 5 — the bytes
parse as Old first and the conversion distorts them. -/
theorem current_passthrough_cex :
    Except.map (Compatible.into_current succConv)
        (Compatible.deserialize succConv natOk natOk () (idSer 5))
      ≠ Except.ok 5 := by
  intro h
  have h2 : (Except.ok 6 : Except Unit Nat) = Except.ok 5 := h
  have h3 : (6 : Nat) = 5 := by injection h2
  exact absurd h3 (by decide)

/-- C3 amended: for every Current value whose encoding does not parse as Old
and whose own codec round-trips, serializing it, decoding the bytes through the
adapter and unwrapping returns the original value. -/
theorem current_passthrough {Bytes eps Old Current : Type}
    (conv : Old → Current)
    (deOld : Bytes → Except eps Old) (deCur : Bytes → Except eps Current)
    (serCur : Current → Bytes) (altErr : eps) (c : Current) (e : eps)
    (h1 : deOld (serCur c) = Except.error e)
    (h2 : deCur (serCur c) = Except.ok c) :
    Except.map (Compatible.into_current conv)
        (Compatible.deserialize conv deOld deCur altErr (serCur c))
      = Except.ok c := by
  unfold Compatible.deserialize
  rw [alt_deserialize_ok_cur deOld deCur altErr (serCur c) e c h1 h2]
  rfl

/-- Witness for C3 amended: the Current value 5 under identity serialization,
an always-failing Old decoder and an always-succeeding Current decoder passes
through unchanged. -/
theorem current_passthrough_witness :
    Except.map (Compatible.into_current succConv)
        (Compatible.deserialize succConv natFail natOk () (idSer 5))
      = Except.ok 5 :=
  current_passthrough succConv natFail natOk idSer () 5 () rfl rfl

/-- C4: decode attempts the Old shape first and the Current shape second,
accepts the first structural parse that succeeds, and fails only when both
fail; in particular an input whose Old parse succeeds is accepted as Old and
then converted, whatever its Current parse would give. -/
theorem decode_old_first {Bytes eps Old Current : Type}
    (conv : Old → Current)
    (deOld : Bytes → Except eps Old) (deCur : Bytes → Except eps Current)
    (altErr : eps) (input : Bytes) :
    (∀ o, deOld input = Except.ok o →
        Alt.deserialize deOld deCur altErr input = Except.ok (Alt.Old o) ∧
        Compatible.deserialize conv deOld deCur altErr input
          = Except.ok (Compatible.mk (Alt.Current (conv o)))) ∧
    (∀ e c, deOld input = Except.error e → deCur input = Except.ok c →
        Compatible.deserialize conv deOld deCur altErr input
          = Except.ok (Compatible.mk (Alt.Current c))) ∧
    (∀ e1 e2, deOld input = Except.error e1 → deCur input = Except.error e2 →
        Compatible.deserialize conv deOld deCur altErr input
          = Except.error altErr) := by
  refine ⟨?_, ?_, ?_⟩
  · intro o h
    have hAlt := alt_deserialize_ok_old deOld deCur altErr input o h
    refine ⟨hAlt, ?_⟩
    unfold Compatible.deserialize
    rw [hAlt]
    rfl
  · intro e c h1 h2
    unfold Compatible.deserialize
    rw [alt_deserialize_ok_cur deOld deCur altErr input e c h1 h2]
    rfl
  · intro e1 e2 h1 h2
    unfold Compatible.deserialize
    rw [alt_deserialize_err deOld deCur altErr input e1 e2 h1 h2]
    rfl

/-- Witness for C4 at an input that parses as both shapes: with both decoders
accepting the input 5, the untagged decode accepts it as Old and the adapter
decode converts it, discarding the Current parse. -/
theorem decode_old_first_witness :
    Alt.deserialize natOk natOk () 5 = Except.ok (Alt.Old 5) ∧
    Compatible.deserialize succConv natOk natOk () 5
      = Except.ok (Compatible.mk (Alt.Current 6)) :=
  (decode_old_first succConv natOk natOk () 5).1 5 rfl

/-- C5: for every adapter obtained from a successful decode, serializing the
adapter produces exactly the bytes of serializing the Current value that
into_current returns — the adapter adds no framing of its own. -/
theorem serialize_after_decode {Bytes eps Old Current : Type}
    (conv : Old → Current)
    (deOld : Bytes → Except eps Old) (deCur : Bytes → Except eps Current)
    (serOld : Old → Bytes) (serCur : Current → Bytes)
    (altErr : eps) (input : Bytes) (a : Compatible Old Current)
    (h : Compatible.deserialize conv deOld deCur altErr input = Except.ok a) :
    Compatible.serialize serOld serCur a
      = serCur (Compatible.into_current conv a) := by
  obtain ⟨alt, _, ha⟩ :=
    compatible_deserialize_ok conv deOld deCur altErr input a h
  subst ha
  cases alt with
  | Old o => rfl
  | Current c => rfl

/-- Witness for C5: input 3 decodes to the adapter holding Current 4, whose
serialization equals the serialization of its unwrapped value. -/
theorem serialize_after_decode_witness :
    Compatible.serialize idSer idSer (Compatible.mk (Alt.Current 4))
      = idSer (Compatible.into_current succConv
          (Compatible.mk (Alt.Current 4))) :=
  serialize_after_decode succConv natOk natOk idSer idSer () 3
    (Compatible.mk (Alt.Current 4)) rfl

/-- C6 as stated is false: supplying only a direct CompatibleTo impl (here the
identity on Nat) makes CompatibleTo available but derives no CompatibleWith
impl — the source has no blanket impl in that direction. -/
theorem either_contract_cex :
    resolveTo (UserImpls.mk none none (some idSer) : UserImpls Nat Nat)
        = some idSer ∧
    resolveWith (UserImpls.mk none none (some idSer) : UserImpls Nat Nat)
        = none :=
  ⟨rfl, rfl⟩

/-- C6 amended: implementing CompatibleWith directly supplies CompatibleTo
through the blanket impl, and supplying only a plain From conversion supplies
both contracts through the two blanket impls; the derivation is
one-directional, so a direct CompatibleTo impl supplies nothing further. -/
theorem contract_derivation {Old Current : Type} (f : Old → Current) :
    resolveTo (UserImpls.mk none (some f) none)
        = some (into_current_via_with f) ∧
    resolveWith (UserImpls.mk (some f) none none)
        = some (from_old_via_from f) ∧
    resolveTo (UserImpls.mk (some f) none none)
        = some (into_current_via_with (from_old_via_from f)) :=
  ⟨rfl, rfl, rfl⟩

/-- C7: when only a plain From conversion is supplied, the derived from_old
operation yields exactly the result of the plain conversion on every old
value. -/
theorem from_old_eq_plain {Old Current : Type} (f : Old → Current) (old : Old) :
    Option.map (fun g => g old)
        (resolveWith (UserImpls.mk (some f) none none))
      = some (f old) :=
  rfl

/-- C8: the field-level hook deserialize_with returns exactly what decoding a
Compatible value and then unwrapping it with into_current returns — the same
Current value on success and the same error on failure. -/
theorem deserialize_with_equiv {Bytes eps Old Current : Type}
    (conv : Old → Current)
    (deOld : Bytes → Except eps Old) (deCur : Bytes → Except eps Current)
    (altErr : eps) (input : Bytes) :
    Compatible.deserialize_with conv deOld deCur altErr input
      = Except.map (Compatible.into_current conv)
          (Compatible.deserialize conv deOld deCur altErr input) := by
  unfold Compatible.deserialize_with
  cases Compatible.deserialize conv deOld deCur altErr input with
  | error e => rfl
  | ok compatible => rfl

/-- C9: normalization is idempotent — for every adapter state, applying
make_current twice equals applying it once. -/
theorem make_current_idem {Old Current : Type} (conv : Old → Current)
    (a : Compatible Old Current) :
    (a.make_current conv).make_current conv = a.make_current conv := by
  rcases a with ⟨alt⟩
  cases alt with
  | Old o => rfl
  | Current c => rfl

/-- C10: normalization never changes the unwrapped value — for every adapter
state, into_current after make_current equals into_current directly. -/
theorem into_current_make_current {Old Current : Type} (conv : Old → Current)
    (a : Compatible Old Current) :
    (a.make_current conv).into_current conv = a.into_current conv := by
  rcases a with ⟨alt⟩
  cases alt with
  | Old o => rfl
  | Current c => rfl

end Compat
